import Mathlib

/-!
Verification development for the Swig ElizaOS plugin
(packages/plugin/src).  The plugin turns free-form text messages into
Solana transactions against a multi-authority "Swig" smart wallet.

We shallowly embed the per-action handlers: public keys are identified
with their base58 strings, chain state is an explicit record, network
effects are collected in a trace list, and each handler becomes a pure
Lean function mirroring the TypeScript control flow statement by
statement.  The regular-expression entity extraction used by the
handlers is embedded as character-list scanners that reproduce the
leftmost-greedy semantics of the concrete JavaScript regexes appearing
in the source.
-/

namespace SwigPlugin

/-- Base58 alphabet used by Solana addresses:
digits without 0, uppercase without I and O, lowercase without l.
Mirrors the character class [1-9A-HJ-NP-Za-km-z]. -/
def isB58 (c : Char) : Bool :=
  (c.isDigit && c != '0') || (c.isUpper && c != 'I' && c != 'O') ||
    (c.isLower && c != 'l')

/-- JavaScript word character \w = [A-Za-z0-9_] (ASCII). -/
def isWordCh (c : Char) : Bool :=
  c.isAlpha || c.isDigit || c == '_'

/-- ASCII whitespace, standing for the JavaScript \s class on the
inputs we consider. -/
def isSpaceCh (c : Char) : Bool :=
  c == ' ' || c == '\t' || c == '\n' || c == '\r'

/-- Longest prefix of decimal digits, with the rest of the input. -/
def digitRun : List Char → List Char × List Char
  | [] => ([], [])
  | c :: cs =>
    if c.isDigit then
      let (r, rest) := digitRun cs
      (c :: r, rest)
    else ([], c :: cs)

/-- Match the regex \d+(?:\.\d+)? at the start of the input, returning
the matched characters (digits, optionally a dot and more digits). -/
def numAt (l : List Char) : Option (List Char) :=
  match l with
  | [] => none
  | c :: _ =>
    if c.isDigit then
      let (intPart, rest) := digitRun l
      match rest with
      | '.' :: t =>
        match t with
        | d :: _ =>
          if d.isDigit then
            let (fracPart, _) := digitRun t
            some (intPart ++ '.' :: fracPart)
          else some intPart
        | [] => some intPart
      | _ => some intPart
    else none

/-- First (leftmost) match of /(\d+(?:\.\d+)?)/ in the text, as used by
the amount extraction of every transfer handler. -/
def firstNum : List Char → Option (List Char)
  | [] => none
  | c :: cs =>
    match numAt (c :: cs) with
    | some m => some m
    | none => firstNum cs

/-- Longest prefix of base58 characters, with the rest of the input. -/
def b58Run : List Char → List Char × List Char
  | [] => ([], [])
  | c :: cs =>
    if isB58 c then
      let (r, rest) := b58Run cs
      (c :: r, rest)
    else ([], c :: cs)

/-- First (leftmost) match of /([1-9A-HJ-NP-Za-km-z]{32,44})/ — no word
boundaries, greedy, as in addSwigAuthority and removeSwigAuthority. -/
def firstB58 : List Char → Option (List Char)
  | [] => none
  | c :: cs =>
    let (r, _) := b58Run (c :: cs)
    if 32 ≤ r.length then some (r.take 44)
    else firstB58 cs

/-- One step of scanning for /\b([1-9A-HJ-NP-Za-km-z]{32,44})\b/:
`prev` is the character just before the current position (none at the
start of the text).  Returns the match together with the remaining
input.  A candidate run matches only when it starts at a word boundary,
has length between 32 and 44, and is followed by a non-word character
or the end of the text (greedy lengths below the full run always end on
a base58 — hence word — character, so backtracking cannot help). -/
def b58Bounded (prev : Option Char) : List Char → Option (List Char × List Char)
  | [] => none
  | c :: cs =>
    let atBoundary :=
      match prev with
      | none => true
      | some p => !isWordCh p
    if atBoundary && isB58 c then
      let (r, rest) := b58Run (c :: cs)
      let after :=
        match rest with
        | [] => true
        | d :: _ => !isWordCh d
      if 32 ≤ r.length && r.length ≤ 44 && after then some (r, rest)
      else b58Bounded (some c) cs
    else b58Bounded (some c) cs

/-- First match of the word-bounded base58 regex in the whole text. -/
def firstB58Bounded (l : List Char) : Option (List Char) :=
  match b58Bounded none l with
  | none => none
  | some (m, _) => some m

/-- All matches of /\b([1-9A-HJ-NP-Za-km-z]{32,44})\b/g, scanning
non-overlapping matches left to right; `fuel` bounds the recursion and
is instantiated with the text length. -/
def allB58Bounded : Nat → Option Char → List Char → List (List Char)
  | 0, _, _ => []
  | fuel + 1, prev, l =>
    match b58Bounded prev l with
    | none => []
    | some (m, rest) => m :: allB58Bounded fuel (m.getLast? <|> prev) rest

/-- All word-bounded base58 matches of the text. -/
def b58Matches (l : List Char) : List (List Char) :=
  allB58Bounded l.length none l

/-- Case-insensitively consume the literal pattern `pat` at the start
of the input, returning the rest on success (the /i flag of the source
regexes). -/
def eatCI : List Char → List Char → Option (List Char)
  | [], rest => some rest
  | _, [] => none
  | p :: ps, c :: cs =>
    if p.toLower == c.toLower then eatCI ps cs else none

/-- Drop leading whitespace (\s*). -/
def dropSpaces : List Char → List Char
  | [] => []
  | c :: cs => if isSpaceCh c then dropSpaces cs else c :: cs

/-- Consume at least one whitespace character (\s+). -/
def eatSpaces1 (l : List Char) : Option (List Char) :=
  match l with
  | [] => none
  | c :: cs => if isSpaceCh c then some (dropSpaces cs) else none

/-- Digit string to natural number (parseInt on a digit run). -/
def digitsToNat (l : List Char) : Nat :=
  l.foldl (fun a c => 10 * a + (c.toNat - 48)) 0

/-- Match /role\s*(?:id\s*)?(\d+)/i at the current position, returning
the captured role id.  The optional id group is tried greedily first,
as the regex engine does. -/
def roleIdAt (l : List Char) : Option Nat :=
  match eatCI ['r', 'o', 'l', 'e'] l with
  | none => none
  | some rest =>
    let rest := dropSpaces rest
    let withId :=
      match eatCI ['i', 'd'] rest with
      | none => none
      | some r2 =>
        let r2 := dropSpaces r2
        let (ds, _) := digitRun r2
        if ds.isEmpty then none else some (digitsToNat ds)
    match withId with
    | some n => some n
    | none =>
      let (ds, _) := digitRun rest
      if ds.isEmpty then none else some (digitsToNat ds)

/-- First match of /role\s*(?:id\s*)?(\d+)/i in the text. -/
def findRoleId : List Char → Option Nat
  | [] => none
  | c :: cs =>
    match roleIdAt (c :: cs) with
    | some n => some n
    | none => findRoleId cs

/-- Capture a greedy base58 token of length 32 to 44 at the current
position (a {32,44} group with no trailing word boundary). -/
def b58Capture (l : List Char) : Option (List Char) :=
  let (r, _) := b58Run l
  if 32 ≤ r.length then some (r.take 44) else none

/-- Match /mint\s+([1-9A-HJ-NP-Za-km-z]{32,44})/i at the current
position. -/
def mintKwAt (l : List Char) : Option (List Char) :=
  match eatCI ['m', 'i', 'n', 't'] l with
  | none => none
  | some rest =>
    match eatSpaces1 rest with
    | none => none
    | some r2 => b58Capture r2

/-- First match of /mint\s+([1-9A-HJ-NP-Za-km-z]{32,44})/i. -/
def findMintKw : List Char → Option (List Char)
  | [] => none
  | c :: cs =>
    match mintKwAt (c :: cs) with
    | some m => some m
    | none => findMintKw cs

/-- Capture a greedy alphanumeric token of length 32 to 44 ([A-Za-z0-9]{32,44}). -/
def alnumCapture (l : List Char) : Option (List Char) :=
  let r := l.takeWhile (fun c => c.isAlpha || c.isDigit)
  if 32 ≤ r.length then some (r.take 44) else none

/-- Consume at least one character of the class [\s:]. -/
def eatSpaceColon1 (l : List Char) : Option (List Char) :=
  match l with
  | [] => none
  | c :: cs =>
    if isSpaceCh c || c == ':' then
      some (cs.dropWhile (fun d => isSpaceCh d || d == ':'))
    else none

/-- Match /(?:mint|token)[\s:]+([A-Za-z0-9]{32,44})/i at the current
position, used by the native-transfer and balance handlers. -/
def mintOrTokenAt (l : List Char) : Option (List Char) :=
  let afterKw :=
    match eatCI ['m', 'i', 'n', 't'] l with
    | some rest => some rest
    | none => eatCI ['t', 'o', 'k', 'e', 'n'] l
  match afterKw with
  | none => none
  | some rest =>
    match eatSpaceColon1 rest with
    | none => none
    | some r2 => alnumCapture r2

/-- First match of /(?:mint|token)[\s:]+([A-Za-z0-9]{32,44})/i. -/
def findMintOrToken : List Char → Option (List Char)
  | [] => none
  | c :: cs =>
    match mintOrTokenAt (c :: cs) with
    | some m => some m
    | none => findMintOrToken cs

/-- Match /KW\s+(?:OPT\s+)?([1-9A-HJ-NP-Za-km-z]{32,44})/i at the
current position: a keyword, whitespace, an optional second keyword
(tried greedily first), then a base58 capture. -/
def kwOptKwB58At (kw opt : List Char) (l : List Char) : Option (List Char) :=
  match eatCI kw l with
  | none => none
  | some rest =>
    match eatSpaces1 rest with
    | none => none
    | some r2 =>
      let withOpt :=
        match eatCI opt r2 with
        | none => none
        | some r3 =>
          match eatSpaces1 r3 with
          | none => none
          | some r4 => b58Capture r4
      match withOpt with
      | some m => some m
      | none => b58Capture r2

/-- Generic scan for the first position where `at?` matches. -/
def findFirst (at? : List Char → Option (List Char)) : List Char → Option (List Char)
  | [] => none
  | c :: cs =>
    match at? (c :: cs) with
    | some m => some m
    | none => findFirst at? cs

/-- /to\s+(?:authority\s+)?([1-9A-HJ-NP-Za-km-z]{32,44})/i
(swigTransferTokenToAuthority Step 6). -/
def findToAuthority (l : List Char) : Option (List Char) :=
  findFirst (kwOptKwB58At ['t', 'o'] ['a', 'u', 't', 'h', 'o', 'r', 'i', 't', 'y']) l

/-- /to\s+([1-9A-HJ-NP-Za-km-z]{32,44})/i (swigTransferTokenToAddress
recipient extraction). -/
def findToB58 (l : List Char) : Option (List Char) :=
  findFirst (fun t =>
    match eatCI ['t', 'o'] t with
    | none => none
    | some rest =>
      match eatSpaces1 rest with
      | none => none
      | some r2 => b58Capture r2) l

/-- /for\s+(?:token\s+)?([1-9A-HJ-NP-Za-km-z]{32,44})/i
(getSwigTokenBalance). -/
def findForToken (l : List Char) : Option (List Char) :=
  findFirst (kwOptKwB58At ['f', 'o', 'r'] ['t', 'o', 'k', 'e', 'n']) l

/-- /of\s+(?:token\s+)?([1-9A-HJ-NP-Za-km-z]{32,44})/i
(getSwigTokenBalance). -/
def findOfToken (l : List Char) : Option (List Char) :=
  findFirst (kwOptKwB58At ['o', 'f'] ['t', 'o', 'k', 'e', 'n']) l

/-- Exact value of parseFloat on a matched amount token of shape
\d+(\.\d+)?, as a rational (we track the real number the float
denotes up to the float rounding the source accepts). -/
def parseDec (m : List Char) : ℚ :=
  let intPart := m.takeWhile (fun c => c != '.')
  let fracPart := (m.dropWhile (fun c => c != '.')).drop 1
  (digitsToNat intPart : ℚ) + (digitsToNat fracPart : ℚ) / (10 ^ fracPart.length : ℚ)

/-! ## Data model

Public keys and account addresses are identified with their base58
strings.  Address derivation (PDA, associated token accounts) is
deterministic in the source; we model the derivations as injective
string constructions. -/

/-- A public key / account address, identified with its base58 text. -/
abbrev PK := String

/-- One role of a Swig wallet: a numeric id binding an Ed25519
authority key (we record the key the role's authority.data denotes). -/
structure Role where
  id : Nat
  authority : PK
  deriving Repr, DecidableEq

/-- The fetched Swig account: its ordered role list. -/
structure Swig where
  roles : List Role
  deriving Repr, DecidableEq

/-- findSwigPda: the program-derived wallet address for an owner key. -/
def findSwigPda (owner : PK) : PK := "swig-pda:" ++ owner

/-- getAssociatedTokenAddress: deterministic per (mint, owner). -/
def ataAddress (mint owner : PK) : PK := "ata:" ++ mint ++ ":" ++ owner

/-- findRolesByEd25519SignerPk from the external SDK: all roles whose
authority key equals the given signer key. -/
def findRolesByEd25519SignerPk (s : Swig) (pk : PK) : List Role :=
  s.roles.filter (fun r => r.authority == pk)

/-- On-chain state visible to one handler invocation. -/
structure Chain where
  /-- The account at the caller's Swig PDA, if it exists. -/
  swigAcct : Option Swig
  /-- Existing token accounts, each with its raw (base unit) amount. -/
  atas : List (PK × Nat)
  /-- Existing mints, each with its decimals. -/
  mints : List (PK × Nat)
  /-- Lamport balance returned by getBalance for the Swig address. -/
  lamports : Nat
  deriving Repr, DecidableEq

/-- Runtime settings consulted by the handlers.  `walletKey` is the
public key of the configured signing keypair (none when
SOLANA_PRIVATE_KEY is absent or unparseable, i.e. getSolanaWallet
returned null). -/
structure Ctx where
  transfersSetting : Option String
  authMgmtSetting : Option String
  walletKey : Option PK
  chain : Chain
  deriving Repr, DecidableEq

/-- The flag decoding used uniformly in the source:
setting === undefined ? true : String(setting) === 'true'. -/
def settingEnabled : Option String → Bool
  | none => true
  | some v => v == "true"

/-- Instructions as assembled by the handlers. -/
inductive Instr where
  /-- Swig.create (payer = caller). -/
  | createSwig (payer : PK)
  /-- SystemProgram.transfer. -/
  | solTransfer (source dest : PK) (lamports : ℚ)
  /-- SPL createTransferInstruction. -/
  | tokenTransfer (source dest owner : PK) (amount : ℚ)
  /-- createAssociatedTokenAccountInstruction. -/
  | createAta (payer ataAcct owner mint : PK)
  /-- addAuthorityInstruction. -/
  | addAuthority (actingRoleId : Nat) (payer newAuthority : PK)
  /-- removeAuthorityInstruction. -/
  | removeAuthority (actingRoleId : Nat) (payer : PK) (targetRoleId : Nat)
  /-- signInstruction: the role-authorized wrapper around an inner
  instruction list. -/
  | signWrap (actingRoleId : Nat) (payer : PK) (inner : List Instr)

/-- Network effects a handler performs, in order. -/
inductive Eff where
  /-- fetchSwig / fetchNullableSwig. -/
  | readSwig (addr : PK)
  /-- getAccount existence/amount lookup. -/
  | readAccount (addr : PK)
  /-- getMint metadata lookup. -/
  | readMint (mint : PK)
  /-- getBalance / getTokenAccountBalance. -/
  | readBalance (addr : PK)
  /-- getLatestBlockhash. -/
  | readBlockhash
  /-- sendRawTransaction of a signed transaction with the given
  instruction list. -/
  | send (tx : List Instr)
  /-- confirmTransaction. -/
  | confirmTx

/-- Whether an effect writes to the chain (submits a transaction). -/
def Eff.isWrite : Eff → Bool
  | .send _ => true
  | _ => false

/-- Target-resolution by role id, as written in the handlers:
swig.roles.find((role) => role.id === targetRoleId). -/
def resolveByRoleId (s : Swig) (rid : Nat) : Option Role :=
  s.roles.find? (fun r => r.id == rid)

/-- Target-resolution by authority address, as written in
removeSwigAuthority: swig.roles.find((role) =>
new PublicKey(role.authority.data).equals(targetAuthorityPubkey)). -/
def resolveByAddress (s : Swig) (pk : PK) : Option Role :=
  s.roles.find? (fun r => r.authority == pk)

/-- Membership test used by the transfer-to-authority handlers:
swig.roles.some((role) => new PublicKey(role.authority.data).equals(addr)). -/
def isAuthorityOf (s : Swig) (pk : PK) : Bool :=
  s.roles.any (fun r => r.authority == pk)

/-! ## Handlers

Each handler is a pure function from the runtime context and the
message text to its outcome and the ordered list of network effects it
performed.  Every constructor of an outcome type corresponds to one
exit point (throw site or success return) of the TypeScript handler;
the catch-all at the bottom of each handler only reformats the thrown
error, so the constructors are exactly the observable outcomes. -/

/-- Outcomes of createSwigAction.handler. -/
inductive CreateRes where
  | noWallet
  | existing (addr : PK)
  | created (addr : PK)
  deriving Repr, DecidableEq

/-- createSwigAction.handler: derive the PDA, check for an existing
wallet with fetchNullableSwig, and only when absent build, sign and
submit the Swig.create transaction. -/
def createSwigHandler (ctx : Ctx) : CreateRes × List Eff :=
  match ctx.walletKey with
  | none => (.noWallet, [])
  | some w =>
    let swigAddress := findSwigPda w
    match ctx.chain.swigAcct with
    | some _ => (.existing swigAddress, [Eff.readSwig swigAddress])
    | none =>
      (.created swigAddress,
        [Eff.readSwig swigAddress, Eff.readBlockhash,
          Eff.send [Instr.createSwig w], Eff.confirmTx])

/-- Outcomes of addSwigAuthorityAction.handler. -/
inductive AddRes where
  | noWallet
  | missingKey
  | fetchFailed
  | notAnAuthority
  | success (newAuthority : PK)
  deriving Repr, DecidableEq

/-- addSwigAuthorityAction.handler.  Note: unlike the remove handler,
the source performs no SWIG_AUTHORITY_MANAGEMENT_ENABLED check. -/
def addSwigAuthorityHandler (ctx : Ctx) (text : String) : AddRes × List Eff :=
  match ctx.walletKey with
  | none => (.noWallet, [])
  | some w =>
    let swigAddress := findSwigPda w
    match firstB58 text.toList with
    | none => (.missingKey, [])
    | some pkChars =>
      let authorityPubkey : PK := String.mk pkChars
      match ctx.chain.swigAcct with
      | none => (.fetchFailed, [Eff.readSwig swigAddress])
      | some swig =>
        match findRolesByEd25519SignerPk swig w with
        | [] => (.notAnAuthority, [Eff.readSwig swigAddress])
        | agentRole :: _ =>
          (.success authorityPubkey,
            [Eff.readSwig swigAddress, Eff.readBlockhash,
              Eff.send [Instr.addAuthority agentRole.id w authorityPubkey],
              Eff.confirmTx])

/-- Outcomes of removeSwigAuthorityAction.handler. -/
inductive RemoveRes where
  | disabled
  | noWallet
  | fetchFailed
  | notAnAuthority
  | roleIdNotFound (rid : Nat)
  | addressNotFound (pk : PK)
  | missingTarget
  | lastAuthority
  | selfRemoval
  | success (target : PK) (targetRoleId : Nat)
  deriving Repr, DecidableEq

/-- removeSwigAuthorityAction.handler: feature flag first, then wallet,
then the regex matches are computed, then fetchSwig, then the caller's
roles, then target resolution (role id branch before public key
branch, guidance error when neither matched), then the last-authority
and self-removal guards, and only then the instruction and
submission. -/
def removeSwigAuthorityHandler (ctx : Ctx) (text : String) : RemoveRes × List Eff :=
  if !(settingEnabled ctx.authMgmtSetting) then (.disabled, [])
  else
    match ctx.walletKey with
    | none => (.noWallet, [])
    | some w =>
      let swigAddress := findSwigPda w
      let cs := text.toList
      let publicKeyMatch := firstB58 cs
      let roleIdMatch := findRoleId cs
      match ctx.chain.swigAcct with
      | none => (.fetchFailed, [Eff.readSwig swigAddress])
      | some swig =>
        match findRolesByEd25519SignerPk swig w with
        | [] => (.notAnAuthority, [Eff.readSwig swigAddress])
        | agentRole :: _ =>
          let resolved : Except RemoveRes Role :=
            match roleIdMatch with
            | some rid =>
              match resolveByRoleId swig rid with
              | none => .error (.roleIdNotFound rid)
              | some t => .ok t
            | none =>
              match publicKeyMatch with
              | some pkChars =>
                let target : PK := String.mk pkChars
                match resolveByAddress swig target with
                | none => .error (.addressNotFound target)
                | some t => .ok t
              | none => .error .missingTarget
          match resolved with
          | .error e => (e, [Eff.readSwig swigAddress])
          | .ok targetRole =>
            if swig.roles.length ≤ 1 then
              (.lastAuthority, [Eff.readSwig swigAddress])
            else if targetRole.authority == w then
              (.selfRemoval, [Eff.readSwig swigAddress])
            else
              (.success targetRole.authority targetRole.id,
                [Eff.readSwig swigAddress, Eff.readBlockhash,
                  Eff.send [Instr.removeAuthority agentRole.id w targetRole.id],
                  Eff.confirmTx])

/-- Outcomes of getSwigAuthoritiesAction.handler. -/
inductive ListAuthRes where
  | noWallet
  | fetchFailed
  | success (auths : List (Nat × PK × Bool))
  deriving Repr, DecidableEq

/-- getSwigAuthoritiesAction.handler: fetch the wallet and report every
role (id, authority, whether it is the caller's key).  The source
consults no feature flag here. -/
def getSwigAuthoritiesHandler (ctx : Ctx) : ListAuthRes × List Eff :=
  match ctx.walletKey with
  | none => (.noWallet, [])
  | some w =>
    let swigAddress := findSwigPda w
    match ctx.chain.swigAcct with
    | none => (.fetchFailed, [Eff.readSwig swigAddress])
    | some swig =>
      (.success (swig.roles.map (fun r => (r.id, r.authority, r.authority == w))),
        [Eff.readSwig swigAddress])

/-- Outcomes of getSwigBalanceAction.handler. -/
inductive BalanceRes where
  | noWallet
  | solBalance (lamports : Nat)
  | tokenBalance (mint : PK) (uiAmount : Nat) (accountFound : Bool)
  deriving Repr, DecidableEq

/-- getSwigBalanceAction.handler: native balance unless a
mint/token keyword names a mint; an absent token account is caught
inline and reported as balance 0.  No feature flag is consulted. -/
def getSwigBalanceHandler (ctx : Ctx) (text : String) : BalanceRes × List Eff :=
  match ctx.walletKey with
  | none => (.noWallet, [])
  | some w =>
    let swigAddress := findSwigPda w
    match findMintOrToken text.toList with
    | none =>
      (.solBalance ctx.chain.lamports, [Eff.readBalance swigAddress])
    | some mintChars =>
      let mint : PK := String.mk mintChars
      let tokenAddress := ataAddress mint swigAddress
      match ctx.chain.atas.find? (fun a => a.1 == tokenAddress) with
      | some (_, amt) =>
        (.tokenBalance mint amt true, [Eff.readBalance tokenAddress])
      | none =>
        (.tokenBalance mint 0 false, [Eff.readBalance tokenAddress])

/-- Outcomes of getSwigTokenBalanceAction.handler. -/
inductive TokenBalRes where
  | noWallet
  | missingMint
  | invalidMint (mint : PK)
  | success (mint : PK) (raw : Nat) (decimals : Nat) (adjusted : ℚ)
      (accountExists : Bool)
  deriving Repr, DecidableEq

/-- The four-way mint extraction of getSwigTokenBalance Step 4:
mint keyword, then "for [token]", then "of [token]", then the first
word-bounded base58 token anywhere. -/
def parseBalanceMint (cs : List Char) : Option PK :=
  match findMintKw cs with
  | some m => some (String.mk m)
  | none =>
    match findForToken cs with
    | some m => some (String.mk m)
    | none =>
      match findOfToken cs with
      | some m => some (String.mk m)
      | none =>
        match b58Matches cs with
        | m :: _ => some (String.mk m)
        | [] => none

/-- getSwigTokenBalanceAction.handler: resolve the mint from the text,
fail on an unknown mint, and report 0 in a success payload when the
wallet's associated token account does not exist. -/
def getSwigTokenBalanceHandler (ctx : Ctx) (text : String) : TokenBalRes × List Eff :=
  match ctx.walletKey with
  | none => (.noWallet, [])
  | some w =>
    let swigAddress := findSwigPda w
    match parseBalanceMint text.toList with
    | none => (.missingMint, [])
    | some mint =>
      match ctx.chain.mints.find? (fun m => m.1 == mint) with
      | none => (.invalidMint mint, [Eff.readMint mint])
      | some (_, decimals) =>
        let ata := ataAddress mint swigAddress
        match ctx.chain.atas.find? (fun a => a.1 == ata) with
        | some (_, amt) =>
          (.success mint amt decimals ((amt : ℚ) / (10 ^ decimals : ℚ)) true,
            [Eff.readMint mint, Eff.readAccount ata])
        | none =>
          (.success mint 0 decimals ((0 : ℚ) / (10 ^ decimals : ℚ)) false,
            [Eff.readMint mint, Eff.readAccount ata])

/-- Lamports per SOL. -/
def LAMPORTS_PER_SOL : ℚ := 1000000000

/-- Outcomes of transferToSwigAction.handler. -/
inductive XferToSwigRes where
  | disabled
  | noWallet
  | missingAmount
  | mintLookupFailed (mint : PK)
  | solSuccess (amount : ℚ)
  | tokenSuccess (mint : PK) (amount : ℚ)
  deriving Repr, DecidableEq

/-- transferToSwigAction.handler: transfers-enabled flag first, then
wallet, then amount (first numeric token) and optional mint keyword;
native SOL transfer when no mint was named, SPL transfer scaled by the
mint's decimals otherwise.  No positivity check is applied to the
parsed amount. -/
def transferToSwigHandler (ctx : Ctx) (text : String) : XferToSwigRes × List Eff :=
  if !(settingEnabled ctx.transfersSetting) then (.disabled, [])
  else
    match ctx.walletKey with
    | none => (.noWallet, [])
    | some w =>
      let swigAddress := findSwigPda w
      let cs := text.toList
      match firstNum cs with
      | none => (.missingAmount, [])
      | some amountChars =>
        let amount := parseDec amountChars
        match findMintOrToken cs with
        | none =>
          let lamports := amount * LAMPORTS_PER_SOL
          (.solSuccess amount,
            [Eff.readBlockhash,
              Eff.send [Instr.solTransfer w swigAddress lamports], Eff.confirmTx])
        | some mintChars =>
          let mint : PK := String.mk mintChars
          let fromAta := ataAddress mint w
          let toAta := ataAddress mint swigAddress
          match ctx.chain.mints.find? (fun m => m.1 == mint) with
          | none => (.mintLookupFailed mint, [Eff.readMint mint])
          | some (_, decimals) =>
            let adjustedAmount := amount * (10 ^ decimals : ℚ)
            (.tokenSuccess mint adjustedAmount,
              [Eff.readMint mint, Eff.readBlockhash,
                Eff.send [Instr.tokenTransfer fromAta toAta w adjustedAmount],
                Eff.confirmTx])

/-- Outcomes of transferTokenToSwigAction.handler. -/
inductive TokToSwigRes where
  | disabled
  | noWallet
  | missingAmount
  | missingMint
  | mintLookupFailed (mint : PK)
  | success (mint : PK) (adjusted : ℚ) (createdAta : Bool)
  deriving Repr, DecidableEq

/-- transferTokenToSwigAction.handler: flag, wallet, amount and first
word-bounded base58 token as the mint; the Swig's associated token
account is created first (paid by the caller) when it does not exist,
then the SPL transfer from the caller's account is appended. -/
def transferTokenToSwigHandler (ctx : Ctx) (text : String) : TokToSwigRes × List Eff :=
  if !(settingEnabled ctx.transfersSetting) then (.disabled, [])
  else
    match ctx.walletKey with
    | none => (.noWallet, [])
    | some w =>
      let swigAddress := findSwigPda w
      let cs := text.toList
      match firstNum cs with
      | none => (.missingAmount, [])
      | some amountChars =>
        match firstB58Bounded cs with
        | none => (.missingMint, [])
        | some mintChars =>
          let amount := parseDec amountChars
          let mint : PK := String.mk mintChars
          match ctx.chain.mints.find? (fun m => m.1 == mint) with
          | none => (.mintLookupFailed mint, [Eff.readMint mint])
          | some (_, decimals) =>
            let adjustedAmount := amount * (10 ^ decimals : ℚ)
            let fromAta := ataAddress mint w
            let toAta := ataAddress mint swigAddress
            let toAccountExists := (ctx.chain.atas.find? (fun a => a.1 == toAta)).isSome
            let tx :=
              (if toAccountExists then [] else [Instr.createAta w toAta swigAddress mint]) ++
                [Instr.tokenTransfer fromAta toAta w adjustedAmount]
            (.success mint adjustedAmount (!toAccountExists),
              [Eff.readMint mint, Eff.readAccount toAta, Eff.readBlockhash,
                Eff.send tx, Eff.confirmTx])

/-- Outcomes of swigTransferToAddressAction.handler. -/
inductive SwigXferAddrRes where
  | noWallet
  | missingAmount
  | missingAddress
  | fetchFailed
  | notAnAuthority
  | success (recipient : PK) (amount : ℚ)
  deriving Repr, DecidableEq

/-- swigTransferToAddressAction.handler.  Note: the source performs no
SWIG_TRANSFERS_ENABLED check in this handler — it goes straight into
the try block. -/
def swigTransferToAddressHandler (ctx : Ctx) (text : String) : SwigXferAddrRes × List Eff :=
  match ctx.walletKey with
  | none => (.noWallet, [])
  | some w =>
    let swigAddress := findSwigPda w
    let cs := text.toList
    match firstNum cs with
    | none => (.missingAmount, [])
    | some amountChars =>
      match firstB58Bounded cs with
      | none => (.missingAddress, [])
      | some addrChars =>
        let amount := parseDec amountChars
        let recipientAddress : PK := String.mk addrChars
        match ctx.chain.swigAcct with
        | none => (.fetchFailed, [Eff.readSwig swigAddress])
        | some swig =>
          match findRolesByEd25519SignerPk swig w with
          | [] => (.notAnAuthority, [Eff.readSwig swigAddress])
          | agentRole :: _ =>
            let transferInstruction :=
              Instr.solTransfer swigAddress recipientAddress (amount * LAMPORTS_PER_SOL)
            let signIx := Instr.signWrap agentRole.id w [transferInstruction]
            (.success recipientAddress amount,
              [Eff.readSwig swigAddress, Eff.readBlockhash,
                Eff.send [signIx], Eff.confirmTx])

/-- Outcomes of swigTransferToAuthorityAction.handler. -/
inductive SwigXferAuthRes where
  | noWallet
  | missingAmount
  | fetchFailed
  | notAnAuthority
  | roleIdNotFound (rid : Nat)
  | notAuthorityAddr (addr : PK)
  | missingTarget
  | success (recipient : PK) (amount : ℚ)
  deriving Repr, DecidableEq

/-- swigTransferToAuthorityAction.handler: resolve the recipient by
role id when a role id was written, otherwise by word-bounded base58
address which must belong to some role; then wrap the SOL transfer
through the caller's role.  No SWIG_TRANSFERS_ENABLED check appears in
this handler. -/
def swigTransferToAuthorityHandler (ctx : Ctx) (text : String) : SwigXferAuthRes × List Eff :=
  match ctx.walletKey with
  | none => (.noWallet, [])
  | some w =>
    let swigAddress := findSwigPda w
    let cs := text.toList
    let addressMatch := firstB58Bounded cs
    let roleIdMatch := findRoleId cs
    match firstNum cs with
    | none => (.missingAmount, [])
    | some amountChars =>
      let amount := parseDec amountChars
      match ctx.chain.swigAcct with
      | none => (.fetchFailed, [Eff.readSwig swigAddress])
      | some swig =>
        match findRolesByEd25519SignerPk swig w with
        | [] => (.notAnAuthority, [Eff.readSwig swigAddress])
        | agentRole :: _ =>
          let recipient? : Except SwigXferAuthRes PK :=
            match roleIdMatch with
            | some rid =>
              match resolveByRoleId swig rid with
              | none => .error (.roleIdNotFound rid)
              | some targetRole => .ok targetRole.authority
            | none =>
              match addressMatch with
              | some addrChars =>
                let addr : PK := String.mk addrChars
                if isAuthorityOf swig addr then .ok addr
                else .error (.notAuthorityAddr addr)
              | none => .error .missingTarget
          match recipient? with
          | .error e => (e, [Eff.readSwig swigAddress])
          | .ok recipientAddress =>
            let transferInstruction :=
              Instr.solTransfer swigAddress recipientAddress (amount * LAMPORTS_PER_SOL)
            let signIx := Instr.signWrap agentRole.id w [transferInstruction]
            (.success recipientAddress amount,
              [Eff.readSwig swigAddress, Eff.readBlockhash,
                Eff.send [signIx], Eff.confirmTx])

/-- Outcomes of swigTransferTokenToAddressAction.handler. -/
inductive SwigTokAddrRes where
  | noWallet
  | missingAmount
  | missingAddresses
  | mintRecipientUnidentified
  | fetchFailed
  | notAnAuthority
  | mintLookupFailed (mint : PK)
  | success (mint recipient : PK) (adjusted : ℚ) (createdAta : Bool)
  deriving Repr, DecidableEq

/-- swigTransferTokenToAddressAction.handler: needs an amount and at
least two base58 tokens; mint and recipient come from the
mint/to keywords when both are present, otherwise positionally (first
address is the mint, second the recipient); the recipient's token
account is created first (paid by the caller) when absent, and the
whole instruction list is wrapped through the caller's role.  No
SWIG_TRANSFERS_ENABLED check appears in this handler. -/
def swigTransferTokenToAddressHandler (ctx : Ctx) (text : String) :
    SwigTokAddrRes × List Eff :=
  match ctx.walletKey with
  | none => (.noWallet, [])
  | some w =>
    let swigAddress := findSwigPda w
    let cs := text.toList
    let addresses := b58Matches cs
    match firstNum cs with
    | none => (.missingAmount, [])
    | some amountChars =>
      if addresses.length < 2 then (.missingAddresses, [])
      else
        let amount := parseDec amountChars
        let mintMatch := findMintKw cs
        let recipientMatch := findToB58 cs
        let pair? : Option (PK × PK) :=
          match mintMatch, recipientMatch with
          | some m, some r => some (String.mk m, String.mk r)
          | _, _ =>
            match addresses with
            | a0 :: a1 :: _ => some (String.mk a0, String.mk a1)
            | _ => none
        match pair? with
        | none => (.mintRecipientUnidentified, [])
        | some (mintAddress, recipientAddress) =>
          match ctx.chain.swigAcct with
          | none => (.fetchFailed, [Eff.readSwig swigAddress])
          | some swig =>
            match findRolesByEd25519SignerPk swig w with
            | [] => (.notAnAuthority, [Eff.readSwig swigAddress])
            | agentRole :: _ =>
              match ctx.chain.mints.find? (fun m => m.1 == mintAddress) with
              | none =>
                (.mintLookupFailed mintAddress,
                  [Eff.readSwig swigAddress, Eff.readMint mintAddress])
              | some (_, decimals) =>
                let adjustedAmount := amount * (10 ^ decimals : ℚ)
                let fromAta := ataAddress mintAddress swigAddress
                let toAta := ataAddress mintAddress recipientAddress
                let toAccountExists :=
                  (ctx.chain.atas.find? (fun a => a.1 == toAta)).isSome
                let instructions :=
                  (if toAccountExists then []
                    else [Instr.createAta w toAta recipientAddress mintAddress]) ++
                    [Instr.tokenTransfer fromAta toAta swigAddress adjustedAmount]
                let signIx := Instr.signWrap agentRole.id w instructions
                (.success mintAddress recipientAddress adjustedAmount (!toAccountExists),
                  [Eff.readSwig swigAddress, Eff.readMint mintAddress,
                    Eff.readAccount toAta, Eff.readBlockhash,
                    Eff.send [signIx], Eff.confirmTx])

/-- Outcomes of swigTransferTokenToAuthorityAction.handler. -/
inductive SwigTokAuthRes where
  | disabled
  | noWallet
  | missingAmount
  | fetchFailed
  | notAnAuthority
  | missingMint
  | roleIdNotFound (rid : Nat)
  | missingTargetAuthority
  | notAuthorityAddr (addr : PK)
  | mintLookupFailed (mint : PK)
  | success (mint recipient : PK) (adjusted : ℚ) (createdAta : Bool)
  deriving Repr, DecidableEq

/-- swigTransferTokenToAuthorityAction.handler: this one does check
SWIG_TRANSFERS_ENABLED before its try block; then amount, fetch,
caller roles, mint keyword, recipient by role id or by the
to/authority keyword (which must be an authority), decimals scaling,
conditional account creation, and the role-wrapped submission. -/
def swigTransferTokenToAuthorityHandler (ctx : Ctx) (text : String) :
    SwigTokAuthRes × List Eff :=
  if !(settingEnabled ctx.transfersSetting) then (.disabled, [])
  else
    match ctx.walletKey with
    | none => (.noWallet, [])
    | some w =>
      let swigAddress := findSwigPda w
      let cs := text.toList
      let roleIdMatch := findRoleId cs
      match firstNum cs with
      | none => (.missingAmount, [])
      | some amountChars =>
        let amount := parseDec amountChars
        match ctx.chain.swigAcct with
        | none => (.fetchFailed, [Eff.readSwig swigAddress])
        | some swig =>
          match findRolesByEd25519SignerPk swig w with
          | [] => (.notAnAuthority, [Eff.readSwig swigAddress])
          | agentRole :: _ =>
            match findMintKw cs with
            | none => (.missingMint, [Eff.readSwig swigAddress])
            | some mintChars =>
              let mintAddress : PK := String.mk mintChars
              let recipient? : Except SwigTokAuthRes PK :=
                match roleIdMatch with
                | some rid =>
                  match resolveByRoleId swig rid with
                  | none => .error (.roleIdNotFound rid)
                  | some targetRole => .ok targetRole.authority
                | none =>
                  match findToAuthority cs with
                  | none => .error .missingTargetAuthority
                  | some addrChars =>
                    let addr : PK := String.mk addrChars
                    if isAuthorityOf swig addr then .ok addr
                    else .error (.notAuthorityAddr addr)
              match recipient? with
              | .error e => (e, [Eff.readSwig swigAddress])
              | .ok recipientAddress =>
                match ctx.chain.mints.find? (fun m => m.1 == mintAddress) with
                | none =>
                  (.mintLookupFailed mintAddress,
                    [Eff.readSwig swigAddress, Eff.readMint mintAddress])
                | some (_, decimals) =>
                  let adjustedAmount := amount * (10 ^ decimals : ℚ)
                  let fromAta := ataAddress mintAddress swigAddress
                  let toAta := ataAddress mintAddress recipientAddress
                  let toAccountExists :=
                    (ctx.chain.atas.find? (fun a => a.1 == toAta)).isSome
                  let instructions :=
                    (if toAccountExists then []
                      else [Instr.createAta w toAta recipientAddress mintAddress]) ++
                      [Instr.tokenTransfer fromAta toAta swigAddress adjustedAmount]
                  let signIx := Instr.signWrap agentRole.id w instructions
                  (.success mintAddress recipientAddress adjustedAmount (!toAccountExists),
                    [Eff.readSwig swigAddress, Eff.readMint mintAddress,
                      Eff.readAccount toAta, Eff.readBlockhash,
                      Eff.send [signIx], Eff.confirmTx])

/-! ## Plugin registration (index.ts) -/

/-- The readOnlyActions list of index.ts (always registered). -/
def readOnlyActionNames : List String :=
  ["CREATE_SWIG", "GET_SWIG_BALANCE", "GET_SWIG_AUTHORITIES", "GET_SWIG_TOKEN_BALANCE"]

/-- The transferActions list of index.ts (registered only when
transfers are enabled). -/
def transferActionNames : List String :=
  ["TRANSFER_TO_SWIG", "ADD_SWIG_AUTHORITY", "SWIG_TRANSFER_TO_ADDRESS",
    "TRANSFER_TOKEN_TO_SWIG", "SWIG_TRANSFER_TO_AUTHORITY",
    "SWIG_TRANSFER_TOKEN_TO_ADDRESS", "SWIG_TRANSFER_TOKEN_TO_AUTHORITY"]

/-- swigPlugin.init: the action set installed at initialization,
keyed on the SWIG_TRANSFERS_ENABLED setting alone. -/
def pluginActions (transfersSetting : Option String) : List String :=
  if settingEnabled transfersSetting then readOnlyActionNames ++ transferActionNames
  else readOnlyActionNames

/-! ## Helper predicates and demonstration fixtures -/

/-- Whether a remove-authority outcome is the success payload. -/
def RemoveRes.isSuccess : RemoveRes → Bool
  | .success _ _ => true
  | _ => false

/-- Whether an effect list performs any chain write. -/
def writes (l : List Eff) : Bool := l.any Eff.isWrite

/-- A caller key used in the demonstration contexts. -/
def callerKey : PK := "9WzDXwBbmkg8ZTbNMqUxvQRAyrZzDsGYdLVL9zYtAWWM"

/-- A second authority key used in the demonstration contexts. -/
def otherKey : PK := "2dr69TRDpT6LNec6XSuLSAyyxcjGiivn7T7MgL1udtms"

/-- A mint address used in the demonstration contexts. -/
def mintKey : PK := "4zMMC9srt5Ri5X14GAgXhaHii3GnPAEERYPJgZJDncDU"

/-- A two-role wallet: the caller on role 0 and a second authority on
role 1. -/
def demoSwig : Swig := ⟨[⟨0, callerKey⟩, ⟨1, otherKey⟩]⟩

/-- Chain state with the demo wallet, one known mint and no token
accounts. -/
def demoChain : Chain :=
  { swigAcct := some demoSwig, atas := [], mints := [(mintKey, 6)],
    lamports := 5000000000 }

/-- Default-settings context over the demo chain. -/
def demoCtx : Ctx :=
  { transfersSetting := none, authMgmtSetting := none,
    walletKey := some callerKey, chain := demoChain }

/-- The demo context with SWIG_AUTHORITY_MANAGEMENT_ENABLED set to
"false". -/
def authFlagOffCtx : Ctx := { demoCtx with authMgmtSetting := some "false" }

/-- The demo context with SWIG_TRANSFERS_ENABLED set to "false". -/
def xferFlagOffCtx : Ctx := { demoCtx with transfersSetting := some "false" }

/-! ## Claim theorems -/

/-- C1: the remove-authority handler refuses, with an error outcome and
no write effect, whenever the fetched role list has exactly one role;
it can never return a success whose removed authority equals the key
of the caller (self-removal is blocked); and when the wallet holds at
least two roles and the target resolves (by role id or by address) to
an existing role of another authority while the caller holds a role,
removal proceeds to instruction building and submission. -/
theorem C1_remove_guards (ctx : Ctx) (text : String) (w : PK) (swig : Swig)
    (hflag : settingEnabled ctx.authMgmtSetting = true)
    (hw : ctx.walletKey = some w) (hs : ctx.chain.swigAcct = some swig) :
    (swig.roles.length = 1 →
      (removeSwigAuthorityHandler ctx text).1.isSuccess = false ∧
      writes (removeSwigAuthorityHandler ctx text).2 = false) ∧
    (∀ rid, (removeSwigAuthorityHandler ctx text).1 ≠ .success w rid) ∧
    (∀ a l r, findRolesByEd25519SignerPk swig w = a :: l →
      2 ≤ swig.roles.length →
      r.authority ≠ w →
      ((∃ rid, findRoleId text.toList = some rid ∧ resolveByRoleId swig rid = some r) ∨
        (findRoleId text.toList = none ∧
          ∃ pkc, firstB58 text.toList = some pkc ∧
            resolveByAddress swig (String.mk pkc) = some r)) →
      removeSwigAuthorityHandler ctx text =
        (.success r.authority r.id,
          [Eff.readSwig (findSwigPda w), Eff.readBlockhash,
            Eff.send [Instr.removeAuthority a.id w r.id], Eff.confirmTx])) := by
  unfold removeSwigAuthorityHandler
  rw [hflag, hw, hs]
  refine ⟨?_, ?_, ?_⟩
  · intro h1
    rcases hr : findRolesByEd25519SignerPk swig w with _ | ⟨a, l⟩
    · simp [hr, RemoveRes.isSuccess, writes, Eff.isWrite]
    · rcases hri : findRoleId text.data with _ | rid
      · rcases hpk : firstB58 text.data with _ | pkc
        · simp [hr, hri, hpk, RemoveRes.isSuccess, writes, Eff.isWrite]
        · rcases hres : resolveByAddress swig (String.mk pkc) with _ | t
          · simp [hr, hri, hpk, hres, RemoveRes.isSuccess, writes, Eff.isWrite]
          · simp [hr, hri, hpk, hres, h1, RemoveRes.isSuccess, writes, Eff.isWrite]
      · rcases hres : resolveByRoleId swig rid with _ | t
        · simp [hr, hri, hres, RemoveRes.isSuccess, writes, Eff.isWrite]
        · simp [hr, hri, hres, h1, RemoveRes.isSuccess, writes, Eff.isWrite]
  · intro rid
    rcases hr : findRolesByEd25519SignerPk swig w with _ | ⟨a, l⟩
    · simp [hr]
    · rcases hri : findRoleId text.data with _ | rid2
      · rcases hpk : firstB58 text.data with _ | pkc
        · simp [hr, hri, hpk]
        · rcases hres : resolveByAddress swig (String.mk pkc) with _ | t
          · simp [hr, hri, hpk, hres]
          · by_cases hlen : swig.roles.length ≤ 1
            · simp [hr, hri, hpk, hres, hlen]
            · by_cases hself : t.authority = w
              · simp [hr, hri, hpk, hres, hlen, hself]
              · simp [hr, hri, hpk, hres, hlen, hself]
      · rcases hres : resolveByRoleId swig rid2 with _ | t
        · simp [hr, hri, hres]
        · by_cases hlen : swig.roles.length ≤ 1
          · simp [hr, hri, hres, hlen]
          · by_cases hself : t.authority = w
            · simp [hr, hri, hres, hlen, hself]
            · simp [hr, hri, hres, hlen, hself]
  · intro a l r hr hlen hne hdisj
    have hlen2 : ¬ swig.roles.length ≤ 1 := by omega
    simp only [String.toList] at hdisj
    rcases hdisj with ⟨rid, hri, hres⟩ | ⟨hri, pkc, hpk, hres⟩
    · simp [hr, hri, hres, hlen2, hne]
    · simp [hr, hri, hpk, hres, hlen2, hne]

/-- C1 witness: on the two-role demo wallet, removing role 1 (held by
another authority) goes through to the submission of the
remove-authority instruction. -/
theorem C1_witness :
    settingEnabled demoCtx.authMgmtSetting = true ∧
    removeSwigAuthorityHandler demoCtx "remove role 1" =
      (.success otherKey 1,
        [Eff.readSwig (findSwigPda callerKey), Eff.readBlockhash,
          Eff.send [Instr.removeAuthority 0 callerKey 1], Eff.confirmTx]) :=
  ⟨rfl, (C1_remove_guards demoCtx "remove role 1" callerKey demoSwig rfl rfl rfl).2.2
    ⟨0, callerKey⟩ [] ⟨1, otherKey⟩ rfl (by decide) (by decide)
    (Or.inl ⟨1, rfl, rfl⟩)⟩

/-- C2: target resolution by role id succeeds exactly when a role with
that id exists in the fetched role list, and resolution by address
succeeds exactly when the address equals the authority key bound to
some role; on the transfer-to-authority handler this is reflected as
success versus the role-not-found / not-an-authority errors. -/
theorem C2_target_resolution (s : Swig) (rid : Nat) (pk : PK)
    (ctx : Ctx) (text : String) (w : PK) (swig : Swig) (a : Role) (l : List Role)
    (amountChars pkc : List Char) :
    ((resolveByRoleId s rid).isSome = true ↔ ∃ r ∈ s.roles, r.id = rid) ∧
    ((resolveByAddress s pk).isSome = true ↔ ∃ r ∈ s.roles, r.authority = pk) ∧
    (isAuthorityOf s pk = true ↔ ∃ r ∈ s.roles, r.authority = pk) ∧
    (ctx.walletKey = some w → ctx.chain.swigAcct = some swig →
      findRolesByEd25519SignerPk swig w = a :: l →
      firstNum text.toList = some amountChars →
      findRoleId text.toList = some rid →
      ((∃ tgt, (swigTransferToAuthorityHandler ctx text).1 = .success tgt (parseDec amountChars)) ↔
        ∃ r ∈ swig.roles, r.id = rid) ∧
      (resolveByRoleId swig rid = none →
        (swigTransferToAuthorityHandler ctx text).1 = .roleIdNotFound rid)) ∧
    (ctx.walletKey = some w → ctx.chain.swigAcct = some swig →
      findRolesByEd25519SignerPk swig w = a :: l →
      firstNum text.toList = some amountChars →
      findRoleId text.toList = none →
      firstB58Bounded text.toList = some pkc →
      ((∃ tgt, (swigTransferToAuthorityHandler ctx text).1 = .success tgt (parseDec amountChars)) ↔
        ∃ r ∈ swig.roles, r.authority = String.mk pkc) ∧
      (isAuthorityOf swig (String.mk pkc) = false →
        (swigTransferToAuthorityHandler ctx text).1 = .notAuthorityAddr (String.mk pkc))) := by
  refine ⟨?_, ?_, ?_, ?_, ?_⟩
  · simp [resolveByRoleId, List.find?_isSome]
  · simp [resolveByAddress, List.find?_isSome]
  · simp [isAuthorityOf, List.any_eq_true]
  · intro hw hs hr hn hri
    simp only [String.toList] at hn hri
    rcases hres : resolveByRoleId swig rid with _ | t
    · have hout : swigTransferToAuthorityHandler ctx text =
          (.roleIdNotFound rid, [Eff.readSwig (findSwigPda w)]) := by
        simp [swigTransferToAuthorityHandler, hw, hs, hr, hn, hri, hres]
      have hnone : ∀ r ∈ swig.roles, ¬ r.id = rid := by
        have := List.find?_eq_none.mp hres
        simpa using this
      rw [hout]
      constructor
      · constructor
        · rintro ⟨tgt, htgt⟩
          simp at htgt
        · rintro ⟨r, hrmem, hrid⟩
          exact absurd hrid (hnone r hrmem)
      · intro _
        rfl
    · have hout : swigTransferToAuthorityHandler ctx text =
          (.success t.authority (parseDec amountChars),
            [Eff.readSwig (findSwigPda w), Eff.readBlockhash,
              Eff.send [Instr.signWrap a.id w
                [Instr.solTransfer (findSwigPda w) t.authority
                  (parseDec amountChars * LAMPORTS_PER_SOL)]], Eff.confirmTx]) := by
        simp [swigTransferToAuthorityHandler, hw, hs, hr, hn, hri, hres]
      rw [hout]
      constructor
      · constructor
        · intro _
          exact ⟨t, List.mem_of_find?_eq_some hres, by simpa using List.find?_some hres⟩
        · intro _
          exact ⟨t.authority, rfl⟩
      · intro hcontra
        exact Option.noConfusion hcontra
  · intro hw hs hr hn hri hpk
    simp only [String.toList] at hn hri hpk
    by_cases hauth : isAuthorityOf swig (String.mk pkc) = true
    · have hout : swigTransferToAuthorityHandler ctx text =
          (.success (String.mk pkc) (parseDec amountChars),
            [Eff.readSwig (findSwigPda w), Eff.readBlockhash,
              Eff.send [Instr.signWrap a.id w
                [Instr.solTransfer (findSwigPda w) (String.mk pkc)
                  (parseDec amountChars * LAMPORTS_PER_SOL)]], Eff.confirmTx]) := by
        simp [swigTransferToAuthorityHandler, hw, hs, hr, hn, hri, hpk, hauth]
      rw [hout]
      constructor
      · constructor
        · intro _
          simpa [isAuthorityOf, List.any_eq_true] using hauth
        · intro _
          exact ⟨String.mk pkc, rfl⟩
      · intro hfalse
        simp [hauth] at hfalse
    · have hfalse : isAuthorityOf swig (String.mk pkc) = false := by
        simpa using hauth
      have hout : swigTransferToAuthorityHandler ctx text =
          (.notAuthorityAddr (String.mk pkc), [Eff.readSwig (findSwigPda w)]) := by
        simp [swigTransferToAuthorityHandler, hw, hs, hr, hn, hri, hpk, hfalse]
      rw [hout]
      constructor
      · constructor
        · rintro ⟨tgt, htgt⟩
          simp at htgt
        · rintro ⟨r, hrmem, hrauth⟩
          have hcontra : isAuthorityOf swig (String.mk pkc) = true := by
            simp only [isAuthorityOf, List.any_eq_true]
            exact ⟨r, hrmem, by simp [hrauth]⟩
          simp [hcontra] at hfalse
      · intro _
        rfl

/-- C2 witness: on the demo wallet, role id 1 resolves (a role with
that id exists), and the transfer-to-authority handler on a role-1
message succeeds accordingly. -/
theorem C2_witness :
    ((resolveByRoleId demoSwig 1).isSome = true ↔ ∃ r ∈ demoSwig.roles, r.id = 1) ∧
    ((∃ tgt, (swigTransferToAuthorityHandler demoCtx "Send 1 SOL from swig to role 1").1 =
        .success tgt (parseDec ['1'])) ↔ ∃ r ∈ demoSwig.roles, r.id = 1) := by
  have h := C2_target_resolution demoSwig 1 otherKey demoCtx
    "Send 1 SOL from swig to role 1" callerKey demoSwig ⟨0, callerKey⟩ [] ['1'] []
  exact ⟨h.1, (h.2.2.2.1 rfl rfl rfl rfl rfl).1⟩

/-- C3: when a wallet already exists at the address derived from the
key of the caller, the create handler performs a single existence read,
builds and submits nothing, and reports the existing address in a
success payload — create is idempotent per owner key. -/
theorem C3_create_idempotent (ctx : Ctx) (w : PK) (s : Swig)
    (hw : ctx.walletKey = some w) (hs : ctx.chain.swigAcct = some s) :
    createSwigHandler ctx = (.existing (findSwigPda w), [Eff.readSwig (findSwigPda w)]) ∧
    writes (createSwigHandler ctx).2 = false := by
  refine ⟨?_, ?_⟩ <;> simp [createSwigHandler, hw, hs, writes, Eff.isWrite]

/-- C3 witness: a second create against the demo context (whose wallet
exists) is a read-only no-op reporting the derived address. -/
theorem C3_witness :
    createSwigHandler demoCtx = (.existing (findSwigPda callerKey), [Eff.readSwig (findSwigPda callerKey)]) ∧
    writes (createSwigHandler demoCtx).2 = false :=
  C3_create_idempotent demoCtx callerKey demoSwig rfl rfl

/-- C4: evaluating the handlers with SWIG_AUTHORITY_MANAGEMENT_ENABLED
set to "false": the remove handler refuses with the disabled outcome,
but the add handler ignores the flag and proceeds all the way to a
submitted add-authority transaction, while listing authorities also
succeeds.  This exhibits the divergence of the add handler from the
claimed (and README-documented) behaviour. -/
theorem C4_add_ignores_authority_flag :
    (removeSwigAuthorityHandler authFlagOffCtx ("remove authority " ++ otherKey) = (.disabled, [])) ∧
    ((addSwigAuthorityHandler authFlagOffCtx ("add authority " ++ otherKey)).1 = .success otherKey) ∧
    (writes (addSwigAuthorityHandler authFlagOffCtx ("add authority " ++ otherKey)).2 = true) ∧
    ((getSwigAuthoritiesHandler authFlagOffCtx).1 =
      .success [(0, callerKey, true), (1, otherKey, false)]) :=
  ⟨rfl, rfl, rfl, rfl⟩

/-- C5 counterexample: with SWIG_TRANSFERS_ENABLED="false", the
swig-transfer-to-address handler does not refuse — it proceeds to a
successful role-wrapped transfer and submits it (its outcome type has
no disabled case at all), contradicting the claim that every
debit/credit handler refuses under the flag. -/
theorem C5_counterexample :
    ((swigTransferToAddressHandler xferFlagOffCtx
        ("Transfer 1.5 SOL from swig to " ++ otherKey)).1 =
      .success otherKey (parseDec ['1', '.', '5'])) ∧
    writes (swigTransferToAddressHandler xferFlagOffCtx
        ("Transfer 1.5 SOL from swig to " ++ otherKey)).2 = true :=
  ⟨rfl, rfl⟩

/-- C5 amended: with the transfers flag false, the three handlers that
do check it (transfer-to-swig, token-transfer-to-swig,
swig-token-transfer-to-authority) refuse with the disabled payload and
no effect; the balance query ignores the flag entirely and still
answers; and the flag removes all transfer actions from the registered
action set at initialization, which is how the remaining three
handlers are gated; an unset flag defaults to enabled. -/
theorem C5_amended (ctx : Ctx) (text : String) (w : PK)
    (hflag : settingEnabled ctx.transfersSetting = false) :
    transferToSwigHandler ctx text = (.disabled, []) ∧
    transferTokenToSwigHandler ctx text = (.disabled, []) ∧
    swigTransferTokenToAuthorityHandler ctx text = (.disabled, []) ∧
    (∀ t u : Option String,
      getSwigBalanceHandler { ctx with transfersSetting := t } text =
        getSwigBalanceHandler { ctx with transfersSetting := u } text) ∧
    (ctx.walletKey = some w → (getSwigBalanceHandler ctx text).1 ≠ .noWallet) ∧
    pluginActions ctx.transfersSetting = readOnlyActionNames ∧
    settingEnabled none = true := by
  refine ⟨?_, ?_, ?_, ?_, ?_, ?_, rfl⟩
  · simp [transferToSwigHandler, hflag]
  · simp [transferTokenToSwigHandler, hflag]
  · simp [swigTransferTokenToAuthorityHandler, hflag]
  · intro t u
    rfl
  · intro hw
    unfold getSwigBalanceHandler
    rw [hw]
    rcases hm : findMintOrToken text.data with _ | mc
    · simp [hm]
    · rcases ha : ctx.chain.atas.find? (fun a => a.1 == ataAddress (String.mk mc) (findSwigPda w)) with _ | p
      · simp [hm, ha]
      · simp [hm, ha]
  · simp [pluginActions, hflag]

/-- C5 witness: the amended statement instantiated on the demo context
with the transfers flag set to "false". -/
theorem C5_amended_witness :
    transferToSwigHandler xferFlagOffCtx "transfer 1 SOL to swig" = (.disabled, []) ∧
    transferTokenToSwigHandler xferFlagOffCtx "transfer 1 SOL to swig" = (.disabled, []) ∧
    swigTransferTokenToAuthorityHandler xferFlagOffCtx "transfer 1 SOL to swig" = (.disabled, []) ∧
    (∀ t u : Option String,
      getSwigBalanceHandler { xferFlagOffCtx with transfersSetting := t } "transfer 1 SOL to swig" =
        getSwigBalanceHandler { xferFlagOffCtx with transfersSetting := u } "transfer 1 SOL to swig") ∧
    (xferFlagOffCtx.walletKey = some callerKey →
      (getSwigBalanceHandler xferFlagOffCtx "transfer 1 SOL to swig").1 ≠ .noWallet) ∧
    pluginActions xferFlagOffCtx.transfersSetting = readOnlyActionNames ∧
    settingEnabled none = true :=
  C5_amended xferFlagOffCtx "transfer 1 SOL to swig" callerKey rfl

/-- C6 counterexample: on a message naming no target at all, the
remove-authority handler raises its missing-target guidance error only
after fetchSwig — a chain read precedes the parse failure,
contradicting the claim that no chain I/O happens before it. -/
theorem C6_counterexample :
    removeSwigAuthorityHandler demoCtx "remove authority please" =
      (.missingTarget, [Eff.readSwig (findSwigPda callerKey)]) ∧
    (removeSwigAuthorityHandler demoCtx "remove authority please").2 ≠ [] :=
  ⟨rfl, by
    simp [show (removeSwigAuthorityHandler demoCtx "remove authority please").2 =
      [Eff.readSwig (findSwigPda callerKey)] from rfl]⟩

/-- C6 amended: missing required entities produce guidance errors; the
SOL swig-transfer handler raises its missing-amount and
missing-address errors before any chain I/O, while the remove handler
raises its missing-target error after exactly the role-list fetch (one
chain read, still no write and no instruction built). -/
theorem C6_amended (ctx : Ctx) (text : String) (w : PK) (swig : Swig) (a : Role) (l : List Role) :
    (ctx.walletKey = some w →
      firstNum text.toList = none →
      swigTransferToAddressHandler ctx text = (.missingAmount, [])) ∧
    (ctx.walletKey = some w →
      ∀ ac, firstNum text.toList = some ac →
      firstB58Bounded text.toList = none →
      swigTransferToAddressHandler ctx text = (.missingAddress, [])) ∧
    (settingEnabled ctx.authMgmtSetting = true →
      ctx.walletKey = some w → ctx.chain.swigAcct = some swig →
      findRolesByEd25519SignerPk swig w = a :: l →
      findRoleId text.toList = none → firstB58 text.toList = none →
      removeSwigAuthorityHandler ctx text =
        (.missingTarget, [Eff.readSwig (findSwigPda w)]) ∧
      writes (removeSwigAuthorityHandler ctx text).2 = false) := by
  refine ⟨?_, ?_, ?_⟩
  · intro hw hn
    simp only [String.toList] at hn
    simp [swigTransferToAddressHandler, hw, hn]
  · intro hw ac hn hb
    simp only [String.toList] at hn hb
    simp [swigTransferToAddressHandler, hw, hn, hb]
  · intro hflag hw hs hr hri hpk
    simp only [String.toList] at hri hpk
    have hout : removeSwigAuthorityHandler ctx text =
        (.missingTarget, [Eff.readSwig (findSwigPda w)]) := by
      simp [removeSwigAuthorityHandler, hflag, hw, hs, hr, hri, hpk]
    exact ⟨hout, by rw [hout]; rfl⟩

/-- C6 witness: the amended statement applied to concrete messages — a
transfer message without a number fails before any I/O, and a remove
message without a target fails right after the single fetch. -/
theorem C6_amended_witness :
    swigTransferToAddressHandler demoCtx "transfer some sol from swig please" =
      (.missingAmount, []) ∧
    (removeSwigAuthorityHandler demoCtx "revoke access now" =
      (.missingTarget, [Eff.readSwig (findSwigPda callerKey)]) ∧
    writes (removeSwigAuthorityHandler demoCtx "revoke access now").2 = false) := by
  refine ⟨?_, ?_⟩
  · exact (C6_amended demoCtx "transfer some sol from swig please" callerKey demoSwig
      ⟨0, callerKey⟩ []).1 rfl rfl
  · exact (C6_amended demoCtx "revoke access now" callerKey demoSwig
      ⟨0, callerKey⟩ []).2.2 rfl rfl rfl rfl rfl rfl

/-- C7 counterexample: the message "transfer 0 SOL to swig" has first
numeric token 0, which is not a positive amount, yet the handler does
not reject it — it proceeds to build and submit a zero-lamport
transfer, contradicting the claimed positivity invariant. -/
theorem C7_counterexample :
    (transferToSwigHandler demoCtx "transfer 0 SOL to swig").1 = .solSuccess (parseDec ['0']) ∧
    parseDec ['0'] = 0 ∧
    writes (transferToSwigHandler demoCtx "transfer 0 SOL to swig").2 = true :=
  ⟨rfl, by
    have h1 : (['0'].takeWhile (fun c => c != '.')) = ['0'] := rfl
    have h2 : ((['0'].dropWhile (fun c => c != '.')).drop 1) = ([] : List Char) := rfl
    have h3 : digitsToNat ['0'] = 0 := rfl
    have h4 : digitsToNat ([] : List Char) = 0 := rfl
    simp only [parseDec, h1, h2, h3, h4]
    norm_num, rfl⟩

/-- C7 amended: the derived transfer amount is exactly the parse of the
first decimal/integer token of the text and is always nonnegative; a
text without a numeric token is reported as amount-absent before any
chain I/O; the source applies no strict-positivity check, so a zero
first token is accepted and transferred. -/
theorem C7_amended (ctx : Ctx) (text : String) (w : PK)
    (hflag : settingEnabled ctx.transfersSetting = true)
    (hw : ctx.walletKey = some w) :
    (firstNum text.toList = none →
      transferToSwigHandler ctx text = (.missingAmount, [])) ∧
    (∀ m, firstNum text.toList = some m →
      0 ≤ parseDec m ∧
      (findMintOrToken text.toList = none →
        transferToSwigHandler ctx text =
          (.solSuccess (parseDec m),
            [Eff.readBlockhash,
              Eff.send [Instr.solTransfer w (findSwigPda w) (parseDec m * LAMPORTS_PER_SOL)],
              Eff.confirmTx]))) := by
  constructor
  · intro hn
    simp only [String.toList] at hn
    simp [transferToSwigHandler, hflag, hw, hn]
  · intro m hn
    simp only [String.toList] at hn
    constructor
    · unfold parseDec
      positivity
    · intro hm
      simp only [String.toList] at hm
      simp [transferToSwigHandler, hflag, hw, hn, hm]

/-- C7 witness: the amended statement on "transfer 1 SOL to swig" — the
first numeric token 1 is recovered as the (nonnegative) amount and the
native transfer is composed from it. -/
theorem C7_amended_witness :
    0 ≤ parseDec ['1'] ∧
    transferToSwigHandler demoCtx "transfer 1 SOL to swig" =
      (.solSuccess (parseDec ['1']),
        [Eff.readBlockhash,
          Eff.send [Instr.solTransfer callerKey (findSwigPda callerKey)
            (parseDec ['1'] * LAMPORTS_PER_SOL)],
          Eff.confirmTx]) := by
  have h := (C7_amended demoCtx "transfer 1 SOL to swig" callerKey rfl rfl).2 ['1'] rfl
  exact ⟨h.1, h.2 rfl⟩

/-- C8: for both token-transfer handlers the composed instruction
sequence is, in order, the conditional account-creation instruction
(present exactly when the destination associated token account does
not exist, and always paid by the own key of the caller) followed by
the token transfer; for the wallet-debiting handler that ordered
sequence is wrapped as a whole through the role-authorized sign
instruction before submission. -/
theorem C8_token_transfer_envelope
    (ctx : Ctx) (text1 text2 : String) (w : PK) (swig : Swig) (a : Role) (l : List Role)
    (ac1 mc1 : List Char) (q1 : PK) (d1 : Nat)
    (ac2 mc2 rc2 : List Char) (q2 : PK) (d2 : Nat) :
    (settingEnabled ctx.transfersSetting = true →
      ctx.walletKey = some w →
      firstNum text1.toList = some ac1 →
      firstB58Bounded text1.toList = some mc1 →
      ctx.chain.mints.find? (fun m => m.1 == String.mk mc1) = some (q1, d1) →
      (ctx.chain.atas.find?
          (fun p => p.1 == ataAddress (String.mk mc1) (findSwigPda w)) = none →
        Eff.send
          [Instr.createAta w (ataAddress (String.mk mc1) (findSwigPda w))
            (findSwigPda w) (String.mk mc1),
           Instr.tokenTransfer (ataAddress (String.mk mc1) w)
             (ataAddress (String.mk mc1) (findSwigPda w)) w
             (parseDec ac1 * (10 ^ d1 : ℚ))] ∈ (transferTokenToSwigHandler ctx text1).2) ∧
      (∀ p, ctx.chain.atas.find?
          (fun x => x.1 == ataAddress (String.mk mc1) (findSwigPda w)) = some p →
        Eff.send
          [Instr.tokenTransfer (ataAddress (String.mk mc1) w)
             (ataAddress (String.mk mc1) (findSwigPda w)) w
             (parseDec ac1 * (10 ^ d1 : ℚ))] ∈ (transferTokenToSwigHandler ctx text1).2)) ∧
    (ctx.walletKey = some w → ctx.chain.swigAcct = some swig →
      findRolesByEd25519SignerPk swig w = a :: l →
      firstNum text2.toList = some ac2 →
      2 ≤ (b58Matches text2.toList).length →
      findMintKw text2.toList = some mc2 →
      findToB58 text2.toList = some rc2 →
      ctx.chain.mints.find? (fun m => m.1 == String.mk mc2) = some (q2, d2) →
      (ctx.chain.atas.find?
          (fun p => p.1 == ataAddress (String.mk mc2) (String.mk rc2)) = none →
        Eff.send [Instr.signWrap a.id w
          [Instr.createAta w (ataAddress (String.mk mc2) (String.mk rc2))
            (String.mk rc2) (String.mk mc2),
           Instr.tokenTransfer (ataAddress (String.mk mc2) (findSwigPda w))
             (ataAddress (String.mk mc2) (String.mk rc2)) (findSwigPda w)
             (parseDec ac2 * (10 ^ d2 : ℚ))]] ∈
          (swigTransferTokenToAddressHandler ctx text2).2) ∧
      (∀ p, ctx.chain.atas.find?
          (fun x => x.1 == ataAddress (String.mk mc2) (String.mk rc2)) = some p →
        Eff.send [Instr.signWrap a.id w
          [Instr.tokenTransfer (ataAddress (String.mk mc2) (findSwigPda w))
             (ataAddress (String.mk mc2) (String.mk rc2)) (findSwigPda w)
             (parseDec ac2 * (10 ^ d2 : ℚ))]] ∈
          (swigTransferTokenToAddressHandler ctx text2).2)) := by
  constructor
  · intro hflag hw hn hb hmint
    simp only [String.toList] at hn hb
    constructor
    · intro hata
      have hout : transferTokenToSwigHandler ctx text1 =
          (.success (String.mk mc1) (parseDec ac1 * (10 ^ d1 : ℚ)) true,
            [Eff.readMint (String.mk mc1),
              Eff.readAccount (ataAddress (String.mk mc1) (findSwigPda w)),
              Eff.readBlockhash,
              Eff.send
                [Instr.createAta w (ataAddress (String.mk mc1) (findSwigPda w))
                  (findSwigPda w) (String.mk mc1),
                 Instr.tokenTransfer (ataAddress (String.mk mc1) w)
                   (ataAddress (String.mk mc1) (findSwigPda w)) w
                   (parseDec ac1 * (10 ^ d1 : ℚ))],
              Eff.confirmTx]) := by
        simp [transferTokenToSwigHandler, hflag, hw, hn, hb, hmint, hata]
      rw [hout]
      simp
    · intro p hata
      have hout : transferTokenToSwigHandler ctx text1 =
          (.success (String.mk mc1) (parseDec ac1 * (10 ^ d1 : ℚ)) false,
            [Eff.readMint (String.mk mc1),
              Eff.readAccount (ataAddress (String.mk mc1) (findSwigPda w)),
              Eff.readBlockhash,
              Eff.send
                [Instr.tokenTransfer (ataAddress (String.mk mc1) w)
                   (ataAddress (String.mk mc1) (findSwigPda w)) w
                   (parseDec ac1 * (10 ^ d1 : ℚ))],
              Eff.confirmTx]) := by
        simp [transferTokenToSwigHandler, hflag, hw, hn, hb, hmint, hata]
      rw [hout]
      simp
  · intro hw hs hr hn hlen hmk hrk hmint
    simp only [String.toList] at hn hlen hmk hrk
    have hlen2 : ¬ ((b58Matches text2.data).length < 2) := by omega
    constructor
    · intro hata
      have hout : swigTransferTokenToAddressHandler ctx text2 =
          (.success (String.mk mc2) (String.mk rc2) (parseDec ac2 * (10 ^ d2 : ℚ)) true,
            [Eff.readSwig (findSwigPda w), Eff.readMint (String.mk mc2),
              Eff.readAccount (ataAddress (String.mk mc2) (String.mk rc2)),
              Eff.readBlockhash,
              Eff.send [Instr.signWrap a.id w
                [Instr.createAta w (ataAddress (String.mk mc2) (String.mk rc2))
                  (String.mk rc2) (String.mk mc2),
                 Instr.tokenTransfer (ataAddress (String.mk mc2) (findSwigPda w))
                   (ataAddress (String.mk mc2) (String.mk rc2)) (findSwigPda w)
                   (parseDec ac2 * (10 ^ d2 : ℚ))]],
              Eff.confirmTx]) := by
        simp [swigTransferTokenToAddressHandler, hw, hs, hr, hn, hlen2, hmk, hrk, hmint, hata]
      rw [hout]
      simp
    · intro p hata
      have hout : swigTransferTokenToAddressHandler ctx text2 =
          (.success (String.mk mc2) (String.mk rc2) (parseDec ac2 * (10 ^ d2 : ℚ)) false,
            [Eff.readSwig (findSwigPda w), Eff.readMint (String.mk mc2),
              Eff.readAccount (ataAddress (String.mk mc2) (String.mk rc2)),
              Eff.readBlockhash,
              Eff.send [Instr.signWrap a.id w
                [Instr.tokenTransfer (ataAddress (String.mk mc2) (findSwigPda w))
                   (ataAddress (String.mk mc2) (String.mk rc2)) (findSwigPda w)
                   (parseDec ac2 * (10 ^ d2 : ℚ))]],
              Eff.confirmTx]) := by
        simp [swigTransferTokenToAddressHandler, hw, hs, hr, hn, hlen2, hmk, hrk, hmint, hata]
      rw [hout]
      simp

/-- C8 witness: concrete token transfers toward destinations whose
associated token accounts are absent — the composed envelopes carry
the caller-paid account creation followed by the transfer, wrapped
through role 0 for the wallet-debiting direction. -/
theorem C8_witness :
    (Eff.send
      [Instr.createAta callerKey (ataAddress mintKey (findSwigPda callerKey))
        (findSwigPda callerKey) mintKey,
       Instr.tokenTransfer (ataAddress mintKey callerKey)
         (ataAddress mintKey (findSwigPda callerKey)) callerKey
         (parseDec ['1', '0', '0'] * (10 ^ 6 : ℚ))] ∈
      (transferTokenToSwigHandler demoCtx
        ("Transfer 100 tokens mint " ++ mintKey ++ " to swig")).2) ∧
    (Eff.send [Instr.signWrap 0 callerKey
      [Instr.createAta callerKey (ataAddress mintKey otherKey) otherKey mintKey,
       Instr.tokenTransfer (ataAddress mintKey (findSwigPda callerKey))
         (ataAddress mintKey otherKey) (findSwigPda callerKey)
         (parseDec ['1', '0', '0'] * (10 ^ 6 : ℚ))]] ∈
      (swigTransferTokenToAddressHandler demoCtx
        ("Transfer 100 tokens mint " ++ mintKey ++ " from swig to " ++ otherKey)).2) := by
  have h := C8_token_transfer_envelope demoCtx
    ("Transfer 100 tokens mint " ++ mintKey ++ " to swig")
    ("Transfer 100 tokens mint " ++ mintKey ++ " from swig to " ++ otherKey)
    callerKey demoSwig ⟨0, callerKey⟩ []
    ['1', '0', '0'] mintKey.toList mintKey 6
    ['1', '0', '0'] mintKey.toList otherKey.toList mintKey 6
  exact ⟨(h.1 rfl rfl rfl rfl rfl).1 rfl,
         (h.2 rfl rfl rfl rfl (by decide) rfl rfl rfl).1 rfl⟩

/-- C9: when the associated token account of the wallet for the
requested (existing) mint does not exist, the token-balance handler
reports a balance of zero — raw 0, adjusted 0, account-exists false —
in a success payload rather than an error. -/
theorem C9_absent_token_account_zero (ctx : Ctx) (text : String) (w : PK)
    (mint q : PK) (decimals : Nat)
    (hw : ctx.walletKey = some w)
    (hm : parseBalanceMint text.toList = some mint)
    (hmint : ctx.chain.mints.find? (fun m => m.1 == mint) = some (q, decimals))
    (hata : ctx.chain.atas.find? (fun a => a.1 == ataAddress mint (findSwigPda w)) = none) :
    getSwigTokenBalanceHandler ctx text =
      (.success mint 0 decimals 0 false,
        [Eff.readMint mint, Eff.readAccount (ataAddress mint (findSwigPda w))]) := by
  simp only [String.toList] at hm
  simp [getSwigTokenBalanceHandler, hw, hm, hmint, hata, zero_div]

/-- C9 witness: the demo chain has the mint but no token accounts, so
the balance query for it reports zero in a success payload. -/
theorem C9_witness :
    getSwigTokenBalanceHandler demoCtx ("get swig token balance for " ++ mintKey) =
      (.success mintKey 0 6 0 false,
        [Eff.readMint mintKey, Eff.readAccount (ataAddress mintKey (findSwigPda callerKey))]) :=
  C9_absent_token_account_zero demoCtx _ callerKey mintKey mintKey 6 rfl rfl rfl rfl

/-- C10: under every configuration of the transfers setting, the action
set installed by plugin initialization never contains
REMOVE_SWIG_AUTHORITY — the index module omits the remove action from
both its readOnlyActions and transferActions lists. -/
theorem C10_remove_never_registered :
    ∀ s : Option String, "REMOVE_SWIG_AUTHORITY" ∉ pluginActions s := by
  intro s
  unfold pluginActions
  split
  · decide
  · decide

end SwigPlugin
